import Mathlib

/-!
Verification of the Qtscope telescope-viewer component (src/Code.jsx).

The component is a single React view.  This development shallowly embeds
its state and operations:

* the per-frame pixel shader `processFrame` (the canvas loop), modelled
  over real-valued RGBA channels; assignments into the `Uint8ClampedArray`
  returned by `getImageData` clamp to [0, 255] (`clampStore`); the integer
  quantisation of the clamped array is not modelled, matching the
  real-valued arithmetic of the source formulas;
* the application state (`AppState`): selected target, quantum-mode flag,
  IBM session status, capped log list, displayed ephemeris, loaded image;
* the operations that mutate it: `connectToIBM` and its two timer
  callbacks, the quantum-mode toggle button, target selection, and the
  image loader callbacks.
-/

namespace Qtscope

/-- One RGBA pixel of the canvas buffer, channels modelled as reals. -/
structure Pixel where
  r : ℝ
  g : ℝ
  b : ℝ
  a : ℝ

/-- Store semantics of an assignment `data[i] = x` into the
`Uint8ClampedArray` returned by `getImageData`: the stored value is `x`
clamped to [0, 255]. -/
noncomputable def clampStore (x : ℝ) : ℝ := min 255 (max 0 x)

/-- `const noise = Math.sin((i * 0.01) + phase) * 20` (src/Code.jsx
line 134), where `i` is the loop variable indexing the RGBA data array. -/
noncomputable def noiseAt (phase : ℝ) (i : ℕ) : ℝ :=
  Real.sin ((i : ℝ) * 0.01 + phase) * 20

/-- The noise value the shader uses for the pixel with pixel index `p`:
the loop `for (let i = 0; i < data.length; i += 4)` visits the `p`-th
pixel with data-array index `i = 4 * p`. -/
noncomputable def pixelNoise (phase : ℝ) (p : ℕ) : ℝ := noiseAt phase (4 * p)

/-- Body of the pixel-shader loop for one pixel (src/Code.jsx 136-150).
Quantum mode: `data[i] = Math.min(255, r + 10)`,
`data[i+1] = Math.min(255, g + 40 - noise)`,
`data[i+2] = Math.min(255, b + 50 - noise)`.
Standard mode: `data[i+k] = Math.max(0, c + noise)` for each channel.
Every write lands in the clamped array (`clampStore`); the alpha byte
`data[i+3]` is never assigned. -/
noncomputable def processPixel (quantumMode : Bool) (noise : ℝ) (px : Pixel) : Pixel :=
  if quantumMode then
    { r := clampStore (min 255 (px.r + 10))
      g := clampStore (min 255 (px.g + 40 - noise))
      b := clampStore (min 255 (px.b + 50 - noise))
      a := px.a }
  else
    { r := clampStore (max 0 (px.r + noise))
      g := clampStore (max 0 (px.g + noise))
      b := clampStore (max 0 (px.b + noise))
      a := px.a }

/-- The full pixel-shader loop, viewed pixel by pixel: `p` is the pixel
index of the head of the remaining list (so its data-array index is
`4 * p`). -/
noncomputable def processPixels (quantumMode : Bool) (phase : ℝ) : ℕ → List Pixel → List Pixel
  | _, [] => []
  | p, px :: rest =>
      processPixel quantumMode (pixelNoise phase p) px ::
        processPixels quantumMode phase (p + 1) rest

/-- `clamp(x, lo, hi)` as the spec writes it (section 8): used as the
refinement target the source writes are compared against. -/
noncomputable def specClamp (lo hi x : ℝ) : ℝ := max lo (min hi x)

/-- The noise formula as the spec states it, read with `p` the pixel
index: `sin(pixelIndex * 0.01 + phase) * 20`. -/
noncomputable def specNoise (phase : ℝ) (p : ℕ) : ℝ :=
  Real.sin ((p : ℝ) * 0.01 + phase) * 20

lemma clampStore_min_eq_specClamp (x : ℝ) :
    clampStore (min 255 x) = specClamp 0 255 x := by
  unfold clampStore specClamp
  exact min_eq_right (max_le (by norm_num) (min_le_left _ _))

lemma clampStore_max_eq_specClamp (x : ℝ) :
    clampStore (max 0 x) = specClamp 0 255 x := by
  unfold clampStore specClamp
  rw [← max_assoc, max_self, min_max_distrib_left]
  norm_num

lemma processPixels_getElem? (quantumMode : Bool) (phase : ℝ) :
    ∀ (l : List Pixel) (p0 p : ℕ) (px : Pixel), l[p]? = some px →
      (processPixels quantumMode phase p0 l)[p]? =
        some (processPixel quantumMode (pixelNoise phase (p0 + p)) px) := by
  intro l
  induction l with
  | nil => intro p0 p px h; simp at h
  | cons hd tl ih =>
      intro p0 p px h
      cases p with
      | zero =>
          simp at h
          subst h
          simp [processPixels]
      | succ p =>
          simp at h
          have := ih (p0 + 1) p px h
          have e : p0 + 1 + p = p0 + (p + 1) := by omega
          rw [e] at this
          simpa [processPixels] using this

/-- C1: for every frame processed with Filter Mode (quantum mode) on and
every pixel with channels r, g, b and noise value N, the written red
channel is clamp(r + 10, 0, 255), the written green channel is
clamp(g + 40 - N, 0, 255), and the written blue channel is
clamp(b + 50 - N, 0, 255). -/
theorem filter_on_pixel_formula (phase : ℝ) (pixels : List Pixel) (p : ℕ) (px : Pixel)
    (h : pixels[p]? = some px) :
    (processPixels true phase 0 pixels)[p]? =
      some { r := specClamp 0 255 (px.r + 10)
             g := specClamp 0 255 (px.g + 40 - pixelNoise phase p)
             b := specClamp 0 255 (px.b + 50 - pixelNoise phase p)
             a := px.a } := by
  have := processPixels_getElem? true phase pixels 0 p px h
  simpa [processPixel, clampStore_min_eq_specClamp] using this

theorem filter_on_pixel_formula_witness :
    (processPixels true 0 0 [⟨0, 0, 0, 0⟩])[0]? =
      some { r := specClamp 0 255 ((0 : ℝ) + 10)
             g := specClamp 0 255 ((0 : ℝ) + 40 - pixelNoise 0 0)
             b := specClamp 0 255 ((0 : ℝ) + 50 - pixelNoise 0 0)
             a := (0 : ℝ) } :=
  filter_on_pixel_formula 0 [⟨0, 0, 0, 0⟩] 0 ⟨0, 0, 0, 0⟩ rfl

/-- C2: for every frame processed with Filter Mode off and every pixel,
each written colour channel is clamp(channel + N, 0, 255) where N is that
pixel's noise value. -/
theorem filter_off_pixel_formula (phase : ℝ) (pixels : List Pixel) (p : ℕ) (px : Pixel)
    (h : pixels[p]? = some px) :
    (processPixels false phase 0 pixels)[p]? =
      some { r := specClamp 0 255 (px.r + pixelNoise phase p)
             g := specClamp 0 255 (px.g + pixelNoise phase p)
             b := specClamp 0 255 (px.b + pixelNoise phase p)
             a := px.a } := by
  have := processPixels_getElem? false phase pixels 0 p px h
  simpa [processPixel, clampStore_max_eq_specClamp] using this

theorem filter_off_pixel_formula_witness :
    (processPixels false 0 0 [⟨0, 0, 0, 0⟩])[0]? =
      some { r := specClamp 0 255 ((0 : ℝ) + pixelNoise 0 0)
             g := specClamp 0 255 ((0 : ℝ) + pixelNoise 0 0)
             b := specClamp 0 255 ((0 : ℝ) + pixelNoise 0 0)
             a := (0 : ℝ) } :=
  filter_off_pixel_formula 0 [⟨0, 0, 0, 0⟩] 0 ⟨0, 0, 0, 0⟩ rfl

/-- C3 counterexample: the noise the shader applies to the pixel with
pixel index 1 (data-array index 4) at phase 0 is sin(0.04) * 20, not the
claimed sin(1 * 0.01 + 0) * 20 = sin(0.01) * 20. -/
theorem noise_index_counterexample : pixelNoise 0 1 ≠ specNoise 0 1 := by
  have hlt : Real.sin 0.01 < Real.sin 0.04 := by
    apply Real.sin_lt_sin_of_lt_of_le_pi_div_two
    · linarith [Real.pi_pos]
    · linarith [Real.pi_gt_three]
    · norm_num
  unfold pixelNoise noiseAt specNoise
  intro h
  have h4 : ((4 * 1 : ℕ) : ℝ) * 0.01 + 0 = 0.04 := by norm_num
  have h1 : ((1 : ℕ) : ℝ) * 0.01 + 0 = 0.01 := by norm_num
  rw [h4, h1] at h
  linarith

/-- C3 (amended): the noise value the shader applies to the pixel at
pixel index p equals sin(i * 0.01 + phase) * 20 where i = 4 * p is the
pixel's index into the RGBA data array: the processed pixel at index p is
the per-pixel transform applied with exactly that noise value. -/
theorem noise_applied_formula (quantumMode : Bool) (phase : ℝ)
    (pixels : List Pixel) (p : ℕ) (px : Pixel) (h : pixels[p]? = some px) :
    (processPixels quantumMode phase 0 pixels)[p]? =
      some (processPixel quantumMode (Real.sin (4 * (p : ℝ) * 0.01 + phase) * 20) px) := by
  have hmain := processPixels_getElem? quantumMode phase pixels 0 p px h
  have e : pixelNoise phase (0 + p) = Real.sin (4 * (p : ℝ) * 0.01 + phase) * 20 := by
    unfold pixelNoise noiseAt
    push_cast
    ring_nf
  rw [e] at hmain
  exact hmain

theorem noise_applied_formula_witness :
    (processPixels true 0 0 [⟨0, 0, 0, 0⟩])[0]? =
      some (processPixel true (Real.sin (4 * ((0 : ℕ) : ℝ) * 0.01 + 0) * 20) ⟨0, 0, 0, 0⟩) :=
  noise_applied_formula true 0 [⟨0, 0, 0, 0⟩] 0 ⟨0, 0, 0, 0⟩ rfl

/-- The four celestial targets (keys of the `TARGETS` table). -/
inductive TargetId
  | MOON
  | JUPITER
  | SATURN
  | MARS
  deriving DecidableEq

/-- One record of the `TARGETS` configuration table: image URL plus the
static ephemeris strings (right ascension, declination, distance). -/
structure Target where
  url : String
  ra : String
  dec : String
  dist : String
  deriving DecidableEq

/-- The hardcoded `TARGETS` table (src/Code.jsx 15-32). -/
def TARGETS : TargetId → Target
  | .MOON =>
      { url := "https://upload.wikimedia.org/wikipedia/commons/thumb/1/1a/Tycho_crater_on_the_Moon_-_LRO_WAC.jpg/600px-Tycho_crater_on_the_Moon_-_LRO_WAC.jpg"
        ra := "05h 12m 14s", dec := "+18° 12\x27 09\"", dist := "384,400 km" }
  | .JUPITER =>
      { url := "https://upload.wikimedia.org/wikipedia/commons/e/e2/Jupiter.jpg"
        ra := "01h 45m 22s", dec := "+10° 20\x27 44\"", dist := "714,000,000 km" }
  | .SATURN =>
      { url := "https://upload.wikimedia.org/wikipedia/commons/c/c7/Saturn_during_Equinox.jpg"
        ra := "22h 30m 11s", dec := "-15° 45\x27 10\"", dist := "1,400,000,000 km" }
  | .MARS =>
      { url := "https://upload.wikimedia.org/wikipedia/commons/0/02/OSIRIS_Mars_true_color.jpg"
        ra := "14h 22m 10s", dec := "-12° 10\x27 05\"", dist := "225,000,000 km" }

/-- The key string of a target, as interpolated into log messages. -/
def TargetId.key : TargetId → String
  | .MOON => "MOON"
  | .JUPITER => "JUPITER"
  | .SATURN => "SATURN"
  | .MARS => "MARS"

/-- The `ibmStatus` state: DISCONNECTED, CONNECTING, QUEUED, ACTIVE. -/
inductive IbmStatus
  | DISCONNECTED
  | CONNECTING
  | QUEUED
  | ACTIVE
  deriving DecidableEq

/-- The component state: the `useState` hooks plus the loaded-image ref
(`imageRef`, modelled as which target's bitmap is held, if any). -/
structure AppState where
  target : TargetId
  quantumMode : Bool
  ibmStatus : IbmStatus
  logs : List String
  ephemeris : Target
  image : Option TargetId
  deriving DecidableEq

/-- The timestamped log line `[time] msg` built by `addLog`; the wall
clock reading is an opaque string parameter. -/
def stamp (now msg : String) : String := "[" ++ now ++ "] " ++ msg

/-- `setLogs(prev => [entry, ...prev].slice(0, 10))` (src/Code.jsx 48-50):
prepend the new entry and keep the first 10. -/
def addLogEntry (entry : String) (logs : List String) : List String :=
  (entry :: logs).take 10

/-- `addLog(msg)` acting on the component state. -/
def addLog (now msg : String) (s : AppState) : AppState :=
  { s with logs := addLogEntry (stamp now msg) s.logs }

/-- The initial `logs` state (src/Code.jsx 39). -/
def initialLogs : List String :=
  [">> SYSTEM INITIALIZED", ">> TELESCOPE LINK ESTABLISHED"]

/-- The two anonymous `setTimeout` callbacks of `connectToIBM`: the outer
one (fires 1500 ms after connect) and the inner one (fires 2000 ms after
the outer one ran). -/
inductive TimerAction
  | toQueued
  | toActive
  deriving DecidableEq

/-- `connectToIBM` (src/Code.jsx 53-82): if the status is ACTIVE,
disconnect immediately and schedule nothing; otherwise set CONNECTING,
log the handshake, and schedule the outer timer with delay 1500 ms.
The returned list holds the delayed callbacks this call schedules,
paired with their delays in milliseconds. -/
def connectToIBM (now : String) (s : AppState) : AppState × List (ℕ × TimerAction) :=
  if s.ibmStatus = .ACTIVE then
    (addLog now "IBM QUANTUM SESSION TERMINATED." { s with ibmStatus := .DISCONNECTED }, [])
  else
    (addLog now ">> HANDSHAKE: IBM QUANTUM CLOUD..." { s with ibmStatus := .CONNECTING },
      [(1500, .toQueued)])

/-- Firing one of the scheduled timer callbacks (src/Code.jsx 72-81):
the outer one sets QUEUED and schedules the inner one at 2000 ms; the
inner one sets ACTIVE and forces `quantumMode` to true. -/
def fireTimer (now : String) : TimerAction → AppState → AppState × List (ℕ × TimerAction)
  | .toQueued, s =>
      (addLog now ">> AUTHENTICATED. JOB QUEUED: ibmq_manila (5 Qubits)"
        { s with ibmStatus := .QUEUED }, [(2000, .toActive)])
  | .toActive, s =>
      (addLog now ">> QPU ALLOCATED. QUANTUM KERNEL RUNNING."
        { s with ibmStatus := .ACTIVE, quantumMode := true }, [])

/-- The image-loader effect run on a target change (src/Code.jsx 85-97):
set the new target and log the slewing message; the fetch it starts
reports back through `imageLoadSuccess` or `imageLoadFailure`. -/
def selectTarget (now : String) (t : TargetId) (s : AppState) : AppState :=
  addLog now ("SLEWING TELESCOPE TO " ++ t.key ++ "...") { s with target := t }

/-- The `img.onload` callback (src/Code.jsx 92-96), with `t` the target
captured by the effect closure: store the bitmap, set the ephemeris to
the target's static record, log the tracking lock. -/
def imageLoadSuccess (now : String) (t : TargetId) (s : AppState) : AppState :=
  addLog now ("TRACKING LOCK: " ++ t.key)
    { s with image := some t, ephemeris := TARGETS t }

/-- A failed image fetch: the source installs no `onerror` handler, so
nothing runs and the state is untouched. -/
def imageLoadFailure (s : AppState) : AppState := s

/-- Every state-mutating operation of the component: the connect button,
a pending session timer firing, the quantum-filter toggle button
(`setQuantumMode(!quantumMode)`, src/Code.jsx 289), target selection,
and the two image-fetch outcomes. -/
inductive Op
  | connect (now : String)
  | timer (now : String) (a : TimerAction)
  | toggle
  | select (now : String) (t : TargetId)
  | loadSuccess (now : String) (t : TargetId)
  | loadFailure
  deriving DecidableEq

/-- Applying one operation to the component state (timer scheduling
dropped: only the state effect). -/
def applyOp : Op → AppState → AppState
  | .connect now, s => (connectToIBM now s).1
  | .timer now a, s => (fireTimer now a s).1
  | .toggle, s => { s with quantumMode := !s.quantumMode }
  | .select now t, s => selectTarget now t s
  | .loadSuccess now t, s => imageLoadSuccess now t s
  | .loadFailure, s => imageLoadFailure s

/-- The component's initial state (src/Code.jsx 36-45). -/
def initState : AppState :=
  { target := .MOON
    quantumMode := false
    ibmStatus := .DISCONNECTED
    logs := initialLogs
    ephemeris := TARGETS .MOON
    image := none }

/-- The `canvas` element; rendered with width 900, height 600
(src/Code.jsx 233-238). -/
structure CanvasSurface where
  width : ℕ
  height : ℕ
  deriving DecidableEq

/-- The decoded bitmap held in `imageRef`; only its dimensions feed the
frame computation. -/
structure LoadedImage where
  width : ℕ
  height : ℕ
  deriving DecidableEq

/-- Everything one `processFrame` tick writes to the drawing surface:
the cover-fit `drawImage` rectangle, the transformed pixel buffer put
back with `putImageData`, and the reticle stroke colour. -/
structure FrameWrite where
  drawX : ℝ
  drawY : ℝ
  drawW : ℝ
  drawH : ℝ
  buffer : List Pixel
  strokeStyle : String

/-- One `processFrame` tick (src/Code.jsx 100-165): with no canvas or no
loaded image it returns at once, leaving the phase accumulator unchanged
and writing nothing; otherwise it advances the phase by 0.15, computes
the cover-fit geometry, runs the pixel loop over the read-back buffer,
and emits the surface writes. -/
noncomputable def processFrame (canvas : Option CanvasSurface) (image : Option LoadedImage)
    (quantumMode : Bool) (phase : ℝ) (readback : List Pixel) :
    ℝ × Option FrameWrite :=
  match canvas, image with
  | some c, some img =>
      let w : ℝ := c.width
      let h : ℝ := c.height
      let scale : ℝ := max (w / (img.width : ℝ)) (h / (img.height : ℝ))
      let phase2 := phase + 0.15
      (phase2,
        some { drawX := w / 2 - (img.width : ℝ) / 2 * scale
               drawY := h / 2 - (img.height : ℝ) / 2 * scale
               drawW := (img.width : ℝ) * scale
               drawH := (img.height : ℝ) * scale
               buffer := processPixels quantumMode phase2 0 readback
               strokeStyle := if quantumMode then "#00ffff" else "rgba(0, 255, 100, 0.5)" })
  | _, _ => (phase, none)

lemma addLogEntry_length_le (e : String) (l : List String) :
    (addLogEntry e l).length ≤ 10 := by
  simp [addLogEntry]

lemma foldl_addLogEntry_length_le (es : List String) (init : List String) :
    (es.foldl (fun acc m => addLogEntry m acc) init).length ≤ 10 ∨ es = [] := by
  induction es generalizing init with
  | nil => exact Or.inr rfl
  | cons e es ih =>
      rcases ih (addLogEntry e init) with h | h
      · exact Or.inl h
      · subst h
        exact Or.inl (addLogEntry_length_le e init)

/-- C4: starting from the initial logs, no sequence of appends ever
leaves more than 10 entries; every append, onto a log of any length,
places the new entry at the front; and when the list already holds 10
entries the entry evicted by the append is the last (oldest) one. -/
theorem log_cap_and_eviction (es : List String) (e : String) (l : List String) :
    (es.foldl (fun acc m => addLogEntry m acc) initialLogs).length ≤ 10
    ∧ (addLogEntry e l).head? = some e
    ∧ (l.length = 10 → addLogEntry e l = e :: l.dropLast) := by
  refine ⟨?_, rfl, ?_⟩
  · rcases foldl_addLogEntry_length_le es initialLogs with hc | hc
    · exact hc
    · subst hc; decide
  · intro h
    have hd : l.dropLast = l.take 9 := by rw [List.dropLast_eq_take, h]
    rw [hd]
    rfl

theorem log_cap_and_eviction_witness :
    ((["a", "b", "c"] : List String).foldl
        (fun acc m => addLogEntry m acc) initialLogs).length ≤ 10
    ∧ (addLogEntry "A" ["x", "y"]).head? = some "A"
    ∧ addLogEntry "A" ["1", "2", "3", "4", "5", "6", "7", "8", "9", "10"] =
        "A" :: ["1", "2", "3", "4", "5", "6", "7", "8", "9", "10"].dropLast :=
  ⟨(log_cap_and_eviction ["a", "b", "c"] "A" ["x", "y"]).1,
   (log_cap_and_eviction ["a", "b", "c"] "A" ["x", "y"]).2.1,
   (log_cap_and_eviction ["a", "b", "c"] "A"
      ["1", "2", "3", "4", "5", "6", "7", "8", "9", "10"]).2.2 (by decide)⟩

/-- C5: triggering connect while DISCONNECTED sets CONNECTING
immediately and schedules only the 1500 ms timer; that timer sets QUEUED
and schedules only the 2000 ms timer; that timer sets ACTIVE and forces
quantum mode true. -/
theorem connect_sequence (n1 n2 n3 : String) (s : AppState)
    (h : s.ibmStatus = .DISCONNECTED) :
    (connectToIBM n1 s).1.ibmStatus = .CONNECTING
    ∧ (connectToIBM n1 s).2 = [(1500, TimerAction.toQueued)]
    ∧ (fireTimer n2 .toQueued (connectToIBM n1 s).1).1.ibmStatus = .QUEUED
    ∧ (fireTimer n2 .toQueued (connectToIBM n1 s).1).2 = [(2000, TimerAction.toActive)]
    ∧ (fireTimer n3 .toActive (fireTimer n2 .toQueued (connectToIBM n1 s).1).1).1.ibmStatus
        = .ACTIVE
    ∧ (fireTimer n3 .toActive (fireTimer n2 .toQueued (connectToIBM n1 s).1).1).1.quantumMode
        = true := by
  have hne : ¬ s.ibmStatus = .ACTIVE := by rw [h]; decide
  simp [connectToIBM, fireTimer, addLog, hne]

theorem connect_sequence_witness :
    (connectToIBM "t1" initState).1.ibmStatus = .CONNECTING
    ∧ (connectToIBM "t1" initState).2 = [(1500, TimerAction.toQueued)]
    ∧ (fireTimer "t2" .toQueued (connectToIBM "t1" initState).1).1.ibmStatus = .QUEUED
    ∧ (fireTimer "t2" .toQueued (connectToIBM "t1" initState).1).2
        = [(2000, TimerAction.toActive)]
    ∧ (fireTimer "t3" .toActive
        (fireTimer "t2" .toQueued (connectToIBM "t1" initState).1).1).1.ibmStatus = .ACTIVE
    ∧ (fireTimer "t3" .toActive
        (fireTimer "t2" .toQueued (connectToIBM "t1" initState).1).1).1.quantumMode = true :=
  connect_sequence "t1" "t2" "t3" initState rfl

/-- A state whose session is ACTIVE (as after the full connect
sequence), used to instantiate the disconnect theorems. -/
def activeState : AppState :=
  { initState with ibmStatus := .ACTIVE, quantumMode := true }

/-- C6: triggering connect while ACTIVE sets DISCONNECTED in the same
synchronous call and schedules no delayed callback. -/
theorem disconnect_immediate (now : String) (s : AppState) (h : s.ibmStatus = .ACTIVE) :
    (connectToIBM now s).1.ibmStatus = .DISCONNECTED ∧ (connectToIBM now s).2 = [] := by
  simp [connectToIBM, h, addLog]

theorem disconnect_immediate_witness :
    (connectToIBM "t" activeState).1.ibmStatus = .DISCONNECTED
    ∧ (connectToIBM "t" activeState).2 = [] :=
  disconnect_immediate "t" activeState rfl

/-- C7: for every one of the four target ids, selecting the target and
letting its image load completes with the displayed ephemeris equal to
exactly that target's static record. -/
theorem select_sets_ephemeris (t : TargetId) (n1 n2 : String) (s : AppState) :
    (imageLoadSuccess n2 t (selectTarget n1 t s)).ephemeris = TARGETS t := rfl

/-- C8: a failed image fetch changes nothing: the previously loaded
image stays, no log entry is appended, and the whole state is untouched
(the embedding is a total function, so no crash is possible). -/
theorem load_failure_silent (s : AppState) :
    (imageLoadFailure s).image = s.image
    ∧ (imageLoadFailure s).logs = s.logs
    ∧ imageLoadFailure s = s :=
  ⟨rfl, rfl, rfl⟩

/-- C9: a frame tick with no canvas or no loaded image leaves the phase
accumulator unchanged and performs no surface write at all. -/
theorem frame_skip_without_surface_or_image (canvas : Option CanvasSurface)
    (image : Option LoadedImage) (quantumMode : Bool) (phase : ℝ) (readback : List Pixel)
    (h : canvas = none ∨ image = none) :
    processFrame canvas image quantumMode phase readback = (phase, none) := by
  rcases h with h | h
  · subst h
    rfl
  · subst h
    cases canvas <;> rfl

theorem frame_skip_without_surface_or_image_witness :
    processFrame none none true 0 [] = (0, none) :=
  frame_skip_without_surface_or_image none none true 0 [] (Or.inl rfl)

/-- C10: disconnecting from ACTIVE leaves the quantum-mode flag exactly
as it was (so the true forced on entering ACTIVE survives the return to
DISCONNECTED); in every state, ACTIVE or not, every operation other
than the toggle button keeps a true flag true; and the toggle button is
the one operation that flips it. -/
theorem quantum_mode_persists (s : AppState) (now : String) (op : Op) :
    (s.ibmStatus = .ACTIVE →
        (applyOp (.connect now) s).quantumMode = s.quantumMode
        ∧ (applyOp (.connect now) s).ibmStatus = .DISCONNECTED)
    ∧ (op ≠ .toggle → s.quantumMode = true → (applyOp op s).quantumMode = true)
    ∧ (applyOp .toggle s).quantumMode = !s.quantumMode := by
  refine ⟨fun hA => ⟨?_, ?_⟩, fun hop hq => ?_, ?_⟩
  · simp [applyOp, connectToIBM, hA, addLog]
  · simp [applyOp, connectToIBM, hA, addLog]
  · cases op with
    | connect n =>
        show (connectToIBM n s).1.quantumMode = true
        unfold connectToIBM
        split <;> simp [addLog, hq]
    | timer n a => cases a <;> simp [applyOp, fireTimer, addLog, hq]
    | toggle => exact absurd rfl hop
    | select n t => simp [applyOp, selectTarget, addLog, hq]
    | loadSuccess n t => simp [applyOp, imageLoadSuccess, addLog, hq]
    | loadFailure => simp [applyOp, imageLoadFailure, hq]
  · simp [applyOp]

theorem quantum_mode_persists_witness :
    ((applyOp (.connect "t") activeState).quantumMode = activeState.quantumMode
      ∧ (applyOp (.connect "t") activeState).ibmStatus = .DISCONNECTED)
    ∧ (applyOp (.connect "t") { initState with quantumMode := true }).quantumMode = true
    ∧ (applyOp .toggle activeState).quantumMode = !activeState.quantumMode :=
  ⟨(quantum_mode_persists activeState "t" .loadFailure).1 rfl,
   (quantum_mode_persists { initState with quantumMode := true } "t"
      (.connect "t")).2.1 (by decide) rfl,
   (quantum_mode_persists activeState "t" .loadFailure).2.2⟩

end Qtscope
